import Mathlib

/-!
Shallow embedding of the Galv backend domain-model and permission-filter
modules (`galv/models/models.py` and `galv/permissions.py`), restricted to
the parts needed to settle the frozen claims: access-level clamping,
the generic resource list filter, monitored-path matching, time-series
handler dispatch, schema-validation outcomes, validation-schema reset,
user activation, harvester API-key generation, and group-proxy permissions.
-/

namespace Galv

/-- Modelled from the spec: the choices module defining the `UserLevel`
enumeration is not part of the given sources; §3 of the spec fixes an
ordered access-tier enumeration
ANONYMOUS < REGISTERED_USER < LAB_MEMBER < TEAM_MEMBER < TEAM_ADMIN. -/
inductive UserLevel
  | ANONYMOUS
  | REGISTERED_USER
  | LAB_MEMBER
  | TEAM_MEMBER
  | TEAM_ADMIN
deriving DecidableEq

/-- Modelled from the spec: numeric values of the ordered tiers, smallest
first, as used by the integer access-level fields. -/
def UserLevel.value : UserLevel → Nat
  | .ANONYMOUS => 0
  | .REGISTERED_USER => 1
  | .LAB_MEMBER => 2
  | .TEAM_MEMBER => 3
  | .TEAM_ADMIN => 4

/-- Modelled from the spec: the choices module defining the
`ValidationStatus` enumeration is not part of the given sources; §3 of the
spec fixes the value set UNCHECKED/VALID/INVALID/ERROR/SKIPPED. -/
inductive ValidationStatus
  | UNCHECKED
  | VALID
  | INVALID
  | ERROR
  | SKIPPED
deriving DecidableEq

/-- `ResourceModelPermissionsMixin.save` (models.py lines 407-418): the
access-level clamping performed before the underlying save.  The two `if`
statements run in order on the mutable fields; the first lowers
`read_access_level` to the (old) `edit_access_level`, the second lowers
`edit_access_level` to `delete_access_level`.  Returns the stored
(read, edit, delete) triple. -/
def ResourceModelPermissionsMixin.save_access_levels
    (read_access_level edit_access_level delete_access_level : Int) :
    Int × Int × Int :=
  let read := if read_access_level > edit_access_level then edit_access_level
              else read_access_level
  let edit := if edit_access_level > delete_access_level then delete_access_level
              else edit_access_level
  (read, edit, delete_access_level)

/-- The three concrete time-series tables (models.py lines 1105-1114). -/
inductive TimeseriesHandler
  | dataFloat
  | dataStr
  | dataInt
deriving DecidableEq

/-- `UnsupportedTimeseriesDataTypeError` (models.py line 1117). -/
inductive TimeseriesError
  | unsupportedDataType
deriving DecidableEq

/-- `get_timeseries_handler_by_type` (models.py lines 1121-1131): dispatch
on the data-type label, raising `UnsupportedTimeseriesDataTypeError`
(modelled as `Except.error`) on any other value. -/
def get_timeseries_handler_by_type (data_type : String) :
    Except TimeseriesError TimeseriesHandler :=
  if data_type = "float" then .ok .dataFloat
  else if data_type = "str" then .ok .dataStr
  else if data_type = "int" then .ok .dataInt
  else .error .unsupportedDataType

/-- Outcome of the serialization-plus-jsonschema phase of
`SchemaValidation.validate` (models.py lines 1295-1330), abstracting the
external `jsonschema` library: success, a `ValidationError` (carrying the
recursively unwrapped detail tree, abstracted as a payload string), a
`_WrappedReferencingError`, or any other exception (carrying its message). -/
inductive JsonValidationOutcome
  | ok
  | validationError (detail : String)
  | wrappedReferencingError
  | otherError (msg : String)

/-- Environment of one `SchemaValidation.validate` run: whether the scan of
serializer classes found one whose `Meta.model` matches the target's model
class (models.py lines 1277-1289), the printed name of that model class,
and the outcome of the subsequent serialization/validation phase. -/
structure ValidateEnv where
  serializer_found : Bool
  model_name : String
  outcome : JsonValidationOutcome

/-- `SchemaValidation.validate` (models.py lines 1271-1330): returns the
new (status, detail) pair, or `Except.error` when an unexpected exception
propagates because `halt_on_error` is set.  When no serializer is found,
status becomes ERROR with a detail naming the model class and the method
returns; a `_WrappedReferencingError` sets status SKIPPED leaving the
detail field untouched. -/
def SchemaValidation.validate (env : ValidateEnv) (prior_detail : Option String)
    (halt_on_error : Bool) : Except String (ValidationStatus × Option String) :=
  if env.serializer_found = false then
    .ok (.ERROR, some ("Could not find serializer for " ++ env.model_name))
  else
    match env.outcome with
    | .ok => .ok (.VALID, none)
    | .validationError d => .ok (.INVALID, some d)
    | .wrappedReferencingError => .ok (.SKIPPED, prior_detail)
    | .otherError m =>
        if halt_on_error then .error m
        else .ok (.ERROR, some ("Error running validation: " ++ m))

/-- One row of the `SchemaValidation` table, restricted to the fields
touched by `ValidationSchema.save` (models.py lines 1244-1255). -/
structure SchemaValidationRow where
  schema_id : Nat
  status : ValidationStatus
  detail : Option String
deriving DecidableEq

/-- `ValidationSchema.save` (models.py lines 1234-1238): after the
underlying save, `SchemaValidation.objects.filter(schema=self).update(...)`
sets status UNCHECKED and detail None on every row referencing this
schema; rows referencing other schemas are untouched. -/
def ValidationSchema.save_reset (self_id : Nat)
    (rows : List SchemaValidationRow) : List SchemaValidationRow :=
  rows.map (fun r =>
    if r.schema_id = self_id then
      { r with status := .UNCHECKED, detail := none }
    else r)

/-- A `Lab` record, restricted to identity (the primary key). -/
structure LabR where
  lid : Nat
deriving DecidableEq

/-- A `Team` record: identity plus the `lab` foreign key (models.py
lines 264-293). -/
structure TeamR where
  tid : Nat
  lab : LabR
deriving DecidableEq

/-- A `Group` record seen through `GroupProxy`: identity plus the three
reverse one-to-one references a group may carry — `editable_lab` from
`Lab.admin_group`, `editable_team` from `Team.admin_group`, and
`readable_team` from `Team.member_group`.  In Django `hasattr(self, name)`
is true exactly when the referencing row exists, modelled here by the
`Option` being `some`. -/
structure GroupR where
  gid : Nat
  editable_lab : Option LabR
  editable_team : Option TeamR
  readable_team : Option TeamR
deriving DecidableEq

/-- A request user: the groups the user belongs to
(`request.user.groups.all()`) plus the authentication/staff flags used by
the permission predicates. -/
structure UserR where
  groups : List GroupR
  is_authenticated : Bool
  is_staff : Bool
  is_superuser : Bool
deriving DecidableEq

/-- `user_teams(user, editable=False)` (models.py lines 339-349): scan the
user's groups; collect `editable_team` back-references, and (when not
restricted to editable) also `readable_team` back-references. -/
def user_teams (user : UserR) (editable : Bool) : List TeamR :=
  user.groups.flatMap (fun g =>
    (match g.editable_team with
     | some t => [t]
     | none => []) ++
    (if editable = false then
      match g.readable_team with
      | some t => [t]
      | none => []
    else []))

/-- `user_labs(user, editable=False)` (models.py lines 352-365): labs the
user administers via an `editable_lab` group; if not restricted to
editable, also the labs of all the user's teams, appended without
duplicates. -/
def user_labs (user : UserR) (editable : Bool) : List LabR :=
  let labs := user.groups.flatMap (fun g =>
    match g.editable_lab with
    | some l => [l]
    | none => [])
  if editable then labs
  else
    (user_teams user false).foldl
      (fun acc t => if t.lab ∈ acc then acc else acc ++ [t.lab]) labs

/-- `Lab.has_object_read_permission` (models.py lines 237-240). -/
def Lab.has_object_read_permission (lab : LabR) (user : UserR) : Bool :=
  user.is_staff || user.is_superuser || decide (lab ∈ user_labs user false)

/-- `Lab.has_object_write_permission` (models.py lines 242-245). -/
def Lab.has_object_write_permission (lab : LabR) (user : UserR) : Bool :=
  user.is_staff || user.is_superuser || decide (lab ∈ user_labs user true)

/-- `Team.has_object_read_permission` (models.py lines 307-309). -/
def Team.has_object_read_permission (team : TeamR) (user : UserR) : Bool :=
  decide (team.lab ∈ user_labs user true) || decide (team ∈ user_teams user false)

/-- `Team.has_object_write_permission` (models.py lines 311-313). -/
def Team.has_object_write_permission (team : TeamR) (user : UserR) : Bool :=
  decide (team.lab ∈ user_labs user true) || decide (team ∈ user_teams user true)

/-- The possible owners returned by `GroupProxy.get_owner`: the lab whose
admin group this is, or the team whose admin (editable) or member
(readable) group this is. -/
inductive GroupOwner
  | lab (l : LabR)
  | editableTeam (t : TeamR)
  | readableTeam (t : TeamR)
deriving DecidableEq

/-- `GroupProxy.get_owner` (models.py lines 185-192): the first of
`editable_lab`, `editable_team`, `readable_team` that exists, else none. -/
def GroupProxy.get_owner (g : GroupR) : Option GroupOwner :=
  match g.editable_lab with
  | some l => some (.lab l)
  | none =>
    match g.editable_team with
    | some t => some (.editableTeam t)
    | none =>
      match g.readable_team with
      | some t => some (.readableTeam t)
      | none => none

/-- `GroupProxy.has_object_write_permission` (models.py lines 195-199):
delegate to the owner's write permission when an owner exists, else deny. -/
def GroupProxy.has_object_write_permission (g : GroupR) (user : UserR) : Bool :=
  match GroupProxy.get_owner g with
  | some (.lab l) => Lab.has_object_write_permission l user
  | some (.editableTeam t) => Team.has_object_write_permission t user
  | some (.readableTeam t) => Team.has_object_write_permission t user
  | none => false

/-- `GroupProxy.has_object_read_permission` (models.py lines 202-206):
owner's read permission or membership in the group when an owner exists;
plain membership in the group otherwise. -/
def GroupProxy.has_object_read_permission (g : GroupR) (user : UserR) : Bool :=
  match GroupProxy.get_owner g with
  | some (.lab l) =>
      Lab.has_object_read_permission l user || decide (g ∈ user.groups)
  | some (.editableTeam t) =>
      Team.has_object_read_permission t user || decide (g ∈ user.groups)
  | some (.readableTeam t) =>
      Team.has_object_read_permission t user || decide (g ∈ user.groups)
  | none => decide (g ∈ user.groups)

/-- One row of a `ResourceModelPermissionsMixin` subclass as seen by the
generic filter: the `team` foreign key (nullable), the stored
`read_access_level`, and whether the row's primary key is NULL (the
`pk__isnull` lookup; false for every saved row). -/
structure ResourceRow where
  team : Option TeamR
  read_access_level : Nat
  pk_isnull : Bool
deriving DecidableEq

/-- `ResourceFilterBackend.filter_list_queryset` (permissions.py lines
90-101) as a per-row predicate: the row survives the queryset filter iff
its team is one of the caller's teams, or its read level is LAB_MEMBER and
its team's lab is one of the caller's labs, or its read level is
REGISTERED_USER and `pk__isnull` equals `not user_approved` (where
`user_approved` is `len(labs) > 0`), or its read level is ANONYMOUS.
Django's `team__in` and `team__lab__in` lookups never match a NULL team. -/
def ResourceFilterBackend.filter_includes (user : UserR) (r : ResourceRow) : Bool :=
  let labs := user_labs user false
  let user_approved : Bool := decide (labs.length > 0)
  (match r.team with
   | some t => decide (t ∈ user_teams user false)
   | none => false) ||
  ((r.read_access_level == UserLevel.LAB_MEMBER.value) &&
   (match r.team with
    | some t => decide (t.lab ∈ labs)
    | none => false)) ||
  ((r.read_access_level == UserLevel.REGISTERED_USER.value) &&
   (r.pk_isnull == !user_approved)) ||
  (r.read_access_level == UserLevel.ANONYMOUS.value)

/-- State of a `UserActivation` row together with the `is_active` flag of
the linked user (models.py lines 52-119).  Timestamps are seconds as
integers; the random token draw is passed in explicitly. -/
structure UA where
  user_is_active : Bool
  token : Option String
  token_update_date : Option Int
  redemption_date : Option Int
deriving DecidableEq

/-- `UserActivation.get_is_expired` (models.py lines 106-108): expired when
no token-update time is recorded, or more than `expiry` seconds
(`settings.USER_ACTIVATION_TOKEN_EXPIRY_S`) have elapsed since it. -/
def UA.get_is_expired (s : UA) (now expiry : Int) : Bool :=
  match s.token_update_date with
  | none => true
  | some t => now - t > expiry

/-- The field updates performed by `UserActivation.generate_token`
(models.py lines 101-104) before it calls `save`: draw a fresh token and
stamp the update time. -/
def UA.generate_token_fields (s : UA) (now : Int) (fresh : String) : UA :=
  { s with token := some fresh, token_update_date := some now }

/-- `UserActivation.save` (models.py lines 78-84) with explicit recursion
fuel: after the underlying save, when the linked user is inactive and the
token is missing or expired, `generate_token` runs — which sets the token
fields and saves again.  `none` is returned only when the fuel runs out,
i.e. when the mutual recursion between `save` and `generate_token` would
exceed the given depth. -/
def UA.saveFuel : Nat → UA → Int → Int → String → Option UA
  | 0, _, _, _, _ => none
  | fuel + 1, s, now, expiry, fresh =>
    if !s.user_is_active && (s.token.isNone || s.get_is_expired now expiry) then
      UA.saveFuel fuel (s.generate_token_fields now fresh) now expiry fresh
    else some s

/-- The two failure modes of `UserActivation.activate_user` (models.py
lines 110-119): `ValueError` for an expired token, `RuntimeError` for an
already-active user. -/
inductive ActivationError
  | tokenExpired
  | alreadyActive
deriving DecidableEq

/-- `UserActivation.activate_user` (models.py lines 110-119): if the token
is expired, regenerate it (set fresh token fields, then save) and raise the
expired error; otherwise if the user is already active raise the
already-active error; otherwise mark the user active, stamp the redemption
time and save.  Returns the final state and the raised error, if any;
`none` only on fuel exhaustion inside `save`. -/
def UA.activate_user (fuel : Nat) (s : UA) (now expiry : Int) (fresh : String) :
    Option (UA × Option ActivationError) :=
  if s.get_is_expired now expiry then
    (UA.saveFuel fuel (s.generate_token_fields now fresh) now expiry fresh).map
      (fun s2 => (s2, some .tokenExpired))
  else if s.user_is_active then
    some (s, some .alreadyActive)
  else
    let s2 := { s with user_is_active := true, redemption_date := some now }
    (UA.saveFuel fuel s2 now expiry fresh).map (fun s3 => (s3, none))

/-- The character set used for harvester API keys (models.py lines
679-682): lowercase, uppercase, digits, and the ten symbols. -/
def harvester_api_key_alphabet : List Char :=
  "abcdefghijklmnopqrstuvwxyzABCDEFGHIJKLMNOPQRSTUVWXYZ0123456789!£$%^&*-=+".data

/-- `random.choices(text, k=60)` with the random source made explicit: the
i-th draw picks the character of the alphabet at index `picks i`. -/
def random_choices_k60 (picks : Fin 60 → Fin harvester_api_key_alphabet.length) :
    List Char :=
  (List.finRange 60).map (fun i => harvester_api_key_alphabet.get (picks i))

/-- `Harvester.save` (models.py lines 676-684), restricted to its effect on
`api_key`: when absent, generate `galv_hrv_` followed by 60 random
characters from the alphabet; when present, leave it unchanged. -/
def Harvester.save_api_key (api_key : Option String)
    (picks : Fin 60 → Fin harvester_api_key_alphabet.length) : String :=
  match api_key with
  | none => "galv_hrv_" ++ String.mk (random_choices_k60 picks)
  | some k => k

/-- Python `str.startswith`: character-wise check that `parent` is a
prefix of `child`. -/
def pyStartswith (child parent : String) : Bool :=
  parent.data.isPrefixOf child.data

/-- Split a path on the `/` separator, dropping empty components — the
component lists `posixpath.relpath` works with. -/
def splitSlashAux (cur : List Char) : List Char → List String
  | [] => if cur = [] then [] else [String.mk cur.reverse]
  | c :: rest =>
    if c = '/' then
      if cur = [] then splitSlashAux [] rest
      else String.mk cur.reverse :: splitSlashAux [] rest
    else splitSlashAux (c :: cur) rest

/-- Components of a path (see `splitSlashAux`). -/
def splitSlash (p : String) : List String :=
  splitSlashAux [] p.data

/-- Length of the common prefix of two component lists
(`posixpath.commonprefix`). -/
def commonLen : List String → List String → Nat
  | a :: as', b :: bs => if a = b then commonLen as' bs + 1 else 0
  | _, _ => 0

/-- Modelled from the spec: `os.path.relpath(path, start)` of the Python
standard library (not part of the given sources), for the case where both
arguments resolve against the same base — drop the common leading
components, prepend one `..` per remaining component of `start`, and join
with `/`; the empty result is the current directory `.`. -/
def relpath (path start : String) : String :=
  let sl := splitSlash start
  let pl := splitSlash path
  let i := commonLen sl pl
  let rel := List.replicate (sl.length - i) ".." ++ pl.drop i
  if rel = [] then "." else String.intercalate "/" rel

/-- One token of the restricted regular-expression model: a literal
character, the any-character class `.`, or the end anchor `$`. -/
inductive RTok
  | lit (c : Char)
  | dot
  | endAnchor
deriving DecidableEq

/-- Whether a token accepts a character; `.` matches anything except a
newline, as in Python without DOTALL. -/
def rtokMatches : RTok → Char → Bool
  | .lit c, d => c = d
  | .dot, d => d ≠ '\n'
  | .endAnchor, _ => false

/-- Characters that carry an unsupported meaning in Python regular
expressions; patterns using them are outside this model. -/
def rUnsupportedChars : List Char :=
  ['+', '?', '[', ']', '(', ')', '|', '^']

/-- Modelled from the spec: lexer of the restricted regular-expression
dialect actually used by the repository's `MonitoredPath` patterns —
literals, backslash escapes of punctuation, `.`, a postfix `*`, and the
`$` end anchor (plus a leading `^` handled by the caller).  Produces
(token, starred) pairs; `none` on constructs outside the model. -/
def lexRegex : List Char → Option (List (RTok × Bool))
  | [] => some []
  | '*' :: _ => none
  | '$' :: '*' :: _ => none
  | '$' :: rest => (lexRegex rest).map (fun ts => (RTok.endAnchor, false) :: ts)
  | '\\' :: [] => none
  | '\\' :: c :: '*' :: rest =>
    if c.isAlphanum then none
    else (lexRegex rest).map (fun ts => (RTok.lit c, true) :: ts)
  | '\\' :: c :: rest =>
    if c.isAlphanum then none
    else (lexRegex rest).map (fun ts => (RTok.lit c, false) :: ts)
  | '.' :: '*' :: rest => (lexRegex rest).map (fun ts => (RTok.dot, true) :: ts)
  | '.' :: rest => (lexRegex rest).map (fun ts => (RTok.dot, false) :: ts)
  | c :: '*' :: rest =>
    if c ∈ rUnsupportedChars then none
    else (lexRegex rest).map (fun ts => (RTok.lit c, true) :: ts)
  | c :: rest =>
    if c ∈ rUnsupportedChars then none
    else (lexRegex rest).map (fun ts => (RTok.lit c, false) :: ts)

/-- Backtracking matcher: does the token list match a prefix of the string
starting here?  A starred token either is skipped or consumes one matching
character and repeats; the end anchor requires the string end.  Each
recursive call decreases tokens or characters, so fuel
`toks.length + s.length + 1` never runs out (fuel exhaustion yields
`false`). -/
def matchHere : Nat → List (RTok × Bool) → List Char → Bool
  | 0, _, _ => false
  | _ + 1, [], _ => true
  | fuel + 1, (t, star) :: rest, s =>
    if star then
      matchHere fuel rest s ||
      (match s with
       | [] => false
       | c :: cs => rtokMatches t c && matchHere fuel ((t, star) :: rest) cs)
    else
      match t with
      | .endAnchor => s.isEmpty && matchHere fuel rest s
      | _ =>
        match s with
        | [] => false
        | c :: cs => rtokMatches t c && matchHere fuel rest cs

/-- Try `matchHere` at every start position, as `re.search` does. -/
def searchFrom (fuel : Nat) (toks : List (RTok × Bool)) : List Char → Bool
  | [] => matchHere fuel toks []
  | c :: cs => matchHere fuel toks (c :: cs) || searchFrom fuel toks cs

/-- Modelled from the spec: Python `re.search(pattern, s) is not None`
restricted to the dialect of `lexRegex`; a leading `^` anchors the match
at the start of the string. -/
def reSearch (pattern s : String) : Bool :=
  let (anchored, body) :=
    match pattern.data with
    | '^' :: rest => (true, rest)
    | cs => (false, cs)
  match lexRegex body with
  | none => false
  | some toks =>
    let fuel := toks.length + s.data.length + 1
    if anchored then matchHere fuel toks s.data
    else searchFrom fuel toks s.data

/-- `MonitoredPath.paths_match(parent, child, regex)` (models.py lines
900-906): false unless `child` starts with `parent`; then, when a regex is
given, whether it searches successfully against `child`'s path relative to
`parent`; true otherwise. -/
def MonitoredPath.paths_match (parent child : String) (regex : Option String) :
    Bool :=
  if !pyStartswith child parent then false
  else
    match regex with
    | some r => reSearch r (relpath child parent)
    | none => true

/-! ## Theorems -/

/-- Helper: one `UserActivation.save` step with a false regeneration guard
returns the state unchanged, for any positive fuel. -/
theorem UA.saveFuel_guard_false {s : UA} {now expiry : Int} {fresh : String}
    (fuel : Nat) (hfuel : 1 ≤ fuel)
    (h : (!s.user_is_active && (s.token.isNone || s.get_is_expired now expiry))
      = false) :
    UA.saveFuel fuel s now expiry fresh = some s := by
  cases fuel with
  | zero => omega
  | succ k => simp [UA.saveFuel, h]

/-- Helper: one `UserActivation.save` step with a true regeneration guard
performs the `generate_token` field updates and saves again with one unit
of fuel spent. -/
theorem UA.saveFuel_guard_true {s : UA} {now expiry : Int} {fresh : String}
    (fuel : Nat) (hfuel : 1 ≤ fuel)
    (h : (!s.user_is_active && (s.token.isNone || s.get_is_expired now expiry))
      = true) :
    UA.saveFuel fuel s now expiry fresh =
      UA.saveFuel (fuel - 1) (s.generate_token_fields now fresh) now expiry
        fresh := by
  cases fuel with
  | zero => omega
  | succ k => simp [UA.saveFuel, h]

/-- Helper: immediately after `generate_token` sets the token fields, the
regeneration guard of `save` is false (the token exists and is zero seconds
old), provided the configured expiry is nonnegative. -/
theorem UA.guard_gtFields_false (s : UA) (now expiry : Int) (fresh : String)
    (hexp : 0 ≤ expiry) :
    (!(s.generate_token_fields now fresh).user_is_active &&
      ((s.generate_token_fields now fresh).token.isNone ||
       (s.generate_token_fields now fresh).get_is_expired now expiry)) = false := by
  simp [UA.generate_token_fields, UA.get_is_expired]
  intro _
  omega

/-- Helper: the literal `galv_hrv_` key header is nine characters. -/
theorem galv_hrv_data_length : ("galv_hrv_" : String).data.length = 9 := by
  decide

/-- Claim C1: the claim states that after `save` the stored levels always
satisfy read ≤ edit ≤ delete.  This fails: supplying
read = edit = TEAM_ADMIN (4) and delete = TEAM_MEMBER (3) — every value
allowed by the respective fields' declared choices — stores (4, 3, 3),
with read > edit, because the read clamp runs against the old edit value
before the edit clamp lowers it.  This contradicts the save method's own
docstring "Read <= Edit <= Delete". -/
theorem C1_access_level_clamp_collapse :
    ResourceModelPermissionsMixin.save_access_levels 4 4 3 = (4, 3, 3) ∧
    ¬((4 : Int) ≤ 3) := by
  decide

/-- Claim C2: the generic resource list filter includes a (saved, hence
non-NULL-pk) row iff the caller is on the row's team, or the row's read
level is LAB_MEMBER and the caller belongs to the owning team's lab, or
the read level is REGISTERED_USER and the caller belongs to at least one
lab, or the read level is ANONYMOUS; in particular an ANONYMOUS-readable
row is included for every caller. -/
theorem C2_resource_filter_membership (u : UserR) (r : ResourceRow)
    (hpk : r.pk_isnull = false) :
    (ResourceFilterBackend.filter_includes u r = true ↔
      ((∃ t, r.team = some t ∧ t ∈ user_teams u false) ∨
       (r.read_access_level = UserLevel.LAB_MEMBER.value ∧
         ∃ t, r.team = some t ∧ t.lab ∈ user_labs u false) ∨
       (r.read_access_level = UserLevel.REGISTERED_USER.value ∧
         user_labs u false ≠ []) ∨
       r.read_access_level = UserLevel.ANONYMOUS.value)) ∧
    (r.read_access_level = UserLevel.ANONYMOUS.value →
      ResourceFilterBackend.filter_includes u r = true) := by
  constructor
  · cases htm : r.team with
    | none =>
      simp [ResourceFilterBackend.filter_includes, htm, hpk, List.length_pos]
    | some t =>
      simp [ResourceFilterBackend.filter_includes, htm, hpk, List.length_pos]
      tauto
  · intro h
    cases htm : r.team with
    | none => simp [ResourceFilterBackend.filter_includes, htm, h]
    | some t => simp [ResourceFilterBackend.filter_includes, htm, h]

/-- Claim C2 witness: a caller with no groups at all (hence no lab or team
membership) still sees a team-less row whose read level is ANONYMOUS. -/
theorem C2_resource_filter_membership_witness :
    ResourceFilterBackend.filter_includes ⟨[], false, false, false⟩
      ⟨none, UserLevel.ANONYMOUS.value, false⟩ = true :=
  (C2_resource_filter_membership ⟨[], false, false, false⟩
    ⟨none, UserLevel.ANONYMOUS.value, false⟩ rfl).2 rfl

/-- Claim C3: `paths_match(parent, child, regex)` is true iff `child`
starts with `parent` and (no regex is given, or the regex search succeeds
against `child`'s path relative to `parent`); moreover
`paths_match("/data/lab1", "/data/lab1/run3/file.csv", ".*\.csv$")` is
true and `paths_match("/data/lab1", "/data/lab2/file.csv", ".*")` is
false. -/
theorem C3_paths_match_characterization :
    (∀ (parent child : String) (regex : Option String),
      MonitoredPath.paths_match parent child regex = true ↔
        (pyStartswith child parent = true ∧
          (regex = none ∨ ∃ r, regex = some r ∧
            reSearch r (relpath child parent) = true))) ∧
    MonitoredPath.paths_match "/data/lab1" "/data/lab1/run3/file.csv"
      (some ".*\\.csv$") = true ∧
    MonitoredPath.paths_match "/data/lab1" "/data/lab2/file.csv"
      (some ".*") = false := by
  refine ⟨?_, by decide, by decide⟩
  intro parent child regex
  unfold MonitoredPath.paths_match
  cases hsw : pyStartswith child parent with
  | false => simp [hsw]
  | true =>
    cases regex with
    | none => simp
    | some r => simp

/-- Claim C4: `get_timeseries_handler_by_type` maps "float", "str" and
"int" to their respective tables and raises the unsupported-data-type
error on every other input string. -/
theorem C4_timeseries_handler_dispatch :
    get_timeseries_handler_by_type "float" = .ok .dataFloat ∧
    get_timeseries_handler_by_type "str" = .ok .dataStr ∧
    get_timeseries_handler_by_type "int" = .ok .dataInt ∧
    ∀ s : String, s ≠ "float" → s ≠ "str" → s ≠ "int" →
      get_timeseries_handler_by_type s = .error .unsupportedDataType := by
  refine ⟨rfl, rfl, rfl, ?_⟩
  intro s h1 h2 h3
  unfold get_timeseries_handler_by_type
  rw [if_neg h1, if_neg h2, if_neg h3]

/-- Claim C4 witness: the label "bool" is rejected with the
unsupported-data-type error. -/
theorem C4_timeseries_handler_dispatch_witness :
    get_timeseries_handler_by_type "bool" = .error .unsupportedDataType :=
  C4_timeseries_handler_dispatch.2.2.2 "bool" (by decide) (by decide)
    (by decide)

/-- Claim C5: when no serializer class matches the target's model, the
validate method sets status ERROR with a detail naming the model whose
serializer is missing and returns without raising, for both values of
`halt_on_error` and whatever the downstream validation outcome would have
been. -/
theorem C5_validate_missing_serializer :
    ∀ (name : String) (outcome : JsonValidationOutcome)
      (prior : Option String) (halt : Bool),
      SchemaValidation.validate ⟨false, name, outcome⟩ prior halt =
        .ok (.ERROR, some ("Could not find serializer for " ++ name)) := by
  intro name outcome prior halt
  rfl

/-- Claim C6: `activate_user` on an expired token regenerates the token
(fresh value, update time stamped now) and fails with the expired error —
regardless of whether the user is already active, so the expiry check
precedes the already-active check; on a fresh token with an active user it
fails with the already-active error; otherwise it marks the user active,
stamps the redemption time, and persists. -/
theorem C6_activate_user_behavior (fuel : Nat) (s : UA) (now expiry : Int)
    (fresh : String) (hfuel : 1 ≤ fuel) (hexp : 0 ≤ expiry) :
    (s.get_is_expired now expiry = true →
      UA.activate_user fuel s now expiry fresh =
        some (s.generate_token_fields now fresh, some .tokenExpired) ∧
      (s.generate_token_fields now fresh).token = some fresh ∧
      (s.generate_token_fields now fresh).token_update_date = some now) ∧
    (s.get_is_expired now expiry = false → s.user_is_active = true →
      UA.activate_user fuel s now expiry fresh = some (s, some .alreadyActive)) ∧
    (s.get_is_expired now expiry = false → s.user_is_active = false →
      UA.activate_user fuel s now expiry fresh =
        some ({ s with user_is_active := true, redemption_date := some now },
              none)) := by
  refine ⟨?_, ?_, ?_⟩
  · intro hex
    refine ⟨?_, rfl, rfl⟩
    unfold UA.activate_user
    rw [if_pos hex,
      UA.saveFuel_guard_false fuel hfuel
        (UA.guard_gtFields_false s now expiry fresh hexp)]
    rfl
  · intro hex hact
    unfold UA.activate_user
    rw [if_neg (by simp [hex]), if_pos hact]
  · intro hex hact
    unfold UA.activate_user
    rw [if_neg (by simp [hex]), if_neg (by simp [hact])]
    have hsf := @UA.saveFuel_guard_false
      { s with user_is_active := true, redemption_date := some now }
      now expiry fresh fuel hfuel (by simp)
    simp [hsf]

/-- Claim C6 witness: an inactive user with no token ever issued (hence
expired) gets a freshly stamped token and the expired error. -/
theorem C6_activate_user_behavior_witness :
    UA.activate_user 1 ⟨false, none, none, none⟩ 100 60 "12345678" =
      some (⟨false, some "12345678", some 100, none⟩,
            some .tokenExpired) :=
  ((C6_activate_user_behavior 1 ⟨false, none, none, none⟩ 100 60 "12345678"
    (by decide) (by decide)).1 rfl).1

/-- Claim C7: saving a `ValidationSchema` resets every `SchemaValidation`
row referencing that schema to status UNCHECKED with no detail, whatever
its prior status, and leaves rows referencing other schemas unchanged. -/
theorem C7_validation_schema_reset (self_id : Nat)
    (rows : List SchemaValidationRow) :
    ((ValidationSchema.save_reset self_id rows).length = rows.length) ∧
    (∀ (i : Nat) (r : SchemaValidationRow), rows[i]? = some r →
      r.schema_id = self_id →
      (ValidationSchema.save_reset self_id rows)[i]? =
        some { r with status := .UNCHECKED, detail := none }) ∧
    (∀ (i : Nat) (r : SchemaValidationRow), rows[i]? = some r →
      r.schema_id ≠ self_id →
      (ValidationSchema.save_reset self_id rows)[i]? = some r) := by
  refine ⟨by simp [ValidationSchema.save_reset], ?_, ?_⟩
  · intro i r hr hid
    simp [ValidationSchema.save_reset, List.getElem?_map, hr, hid]
  · intro i r hr hid
    simp [ValidationSchema.save_reset, List.getElem?_map, hr, hid]

/-- Claim C7 witness: saving schema 1 over a VALID row for schema 1 and an
ERROR row for schema 2 resets the first and leaves the second. -/
theorem C7_validation_schema_reset_witness :
    (ValidationSchema.save_reset 1
      [⟨1, .VALID, some "d"⟩, ⟨2, .ERROR, none⟩])[0]? =
        some ⟨1, .UNCHECKED, none⟩ ∧
    (ValidationSchema.save_reset 1
      [⟨1, .VALID, some "d"⟩, ⟨2, .ERROR, none⟩])[1]? =
        some ⟨2, .ERROR, none⟩ :=
  ⟨(C7_validation_schema_reset 1
      [⟨1, .VALID, some "d"⟩, ⟨2, .ERROR, none⟩]).2.1 0
      ⟨1, .VALID, some "d"⟩ rfl rfl,
   (C7_validation_schema_reset 1
      [⟨1, .VALID, some "d"⟩, ⟨2, .ERROR, none⟩]).2.2 1
      ⟨2, .ERROR, none⟩ rfl (by decide)⟩

/-- Claim C8: a key generated when `api_key` is absent is exactly
9 + 60 = 69 characters, its first nine characters are `galv_hrv_`, and
every remaining character is drawn from the documented alphabet; a key
already set is left unchanged. -/
theorem C8_harvester_api_key_format :
    (∀ picks, (Harvester.save_api_key none picks).length = 69 ∧
      (Harvester.save_api_key none picks).data.take 9 = "galv_hrv_".data ∧
      ∀ c ∈ (Harvester.save_api_key none picks).data.drop 9,
        c ∈ harvester_api_key_alphabet) ∧
    (∀ k picks, Harvester.save_api_key (some k) picks = k) := by
  constructor
  · intro picks
    have hdata : (Harvester.save_api_key none picks).data =
        "galv_hrv_".data ++ random_choices_k60 picks := by
      show ("galv_hrv_" ++ String.mk (random_choices_k60 picks)).data = _
      simp [String.data_append]
    have hlen : (random_choices_k60 picks).length = 60 := by
      simp [random_choices_k60]
    refine ⟨?_, ?_, ?_⟩
    · show (Harvester.save_api_key none picks).data.length = 69
      rw [hdata]
      simp [hlen, galv_hrv_data_length]
    · rw [hdata]
      have h9 : ("galv_hrv_" : String).data.length = 9 := galv_hrv_data_length
      rw [← h9, List.take_left]
    · intro c hc
      rw [hdata] at hc
      rw [show (9 : Nat) = ("galv_hrv_" : String).data.length from
        galv_hrv_data_length.symm, List.drop_left] at hc
      simp only [random_choices_k60, List.mem_map] at hc
      obtain ⟨i, _, hi⟩ := hc
      rw [← hi]
      exact List.get_mem _ _ (picks i).isLt
  · intro k picks
    rfl

/-- Claim C8 witness: with a random source that always picks the first
alphabet character, the generated key has length 69 and its tail character
is in the alphabet, and an existing key is preserved. -/
theorem C8_harvester_api_key_format_witness :
    (Harvester.save_api_key none (fun _ => ⟨0, by decide⟩)).length = 69 ∧
    'a' ∈ harvester_api_key_alphabet ∧
    Harvester.save_api_key (some "existing") (fun _ => ⟨0, by decide⟩) =
      "existing" :=
  ⟨(C8_harvester_api_key_format.1 (fun _ => ⟨0, by decide⟩)).1,
   (C8_harvester_api_key_format.1 (fun _ => ⟨0, by decide⟩)).2.2 'a'
     (by decide),
   C8_harvester_api_key_format.2 "existing" (fun _ => ⟨0, by decide⟩)⟩

/-- Claim C9: a group with no `editable_lab`, `editable_team` or
`readable_team` back-reference has no owner, so its object write
permission is false for every request — staff, superusers and members
included — while its object read permission holds exactly for members of
the group. -/
theorem C9_group_without_owner (g : GroupR) (u : UserR)
    (h1 : g.editable_lab = none) (h2 : g.editable_team = none)
    (h3 : g.readable_team = none) :
    GroupProxy.has_object_write_permission g u = false ∧
    (GroupProxy.has_object_read_permission g u = true ↔ g ∈ u.groups) := by
  have ho : GroupProxy.get_owner g = none := by
    simp [GroupProxy.get_owner, h1, h2, h3]
  constructor
  · simp [GroupProxy.has_object_write_permission, ho]
  · simp [GroupProxy.has_object_read_permission, ho]

/-- Claim C9 witness: a staff superuser who is a member of an ownerless
group still cannot write it, yet can read it. -/
theorem C9_group_without_owner_witness :
    GroupProxy.has_object_write_permission ⟨1, none, none, none⟩
      ⟨[⟨1, none, none, none⟩], true, true, true⟩ = false ∧
    GroupProxy.has_object_read_permission ⟨1, none, none, none⟩
      ⟨[⟨1, none, none, none⟩], true, true, true⟩ = true :=
  ⟨(C9_group_without_owner ⟨1, none, none, none⟩
      ⟨[⟨1, none, none, none⟩], true, true, true⟩ rfl rfl rfl).1,
   (C9_group_without_owner ⟨1, none, none, none⟩
      ⟨[⟨1, none, none, none⟩], true, true, true⟩ rfl rfl rfl).2.mpr
     (by decide)⟩

/-- Claim C10: `UserActivation.save` terminates with recursion depth at
most one (fuel 2 suffices and more fuel changes nothing), because after
`generate_token` stamps `token_update_date` with the current time the
nested save's regeneration guard is false; when regeneration does fire,
the result is exactly the state with the fresh token fields set. -/
theorem C10_user_activation_save_terminates (s : UA) (now expiry : Int)
    (fresh : String) (hexp : 0 ≤ expiry) :
    (UA.saveFuel 2 s now expiry fresh).isSome = true ∧
    (∀ fuel, 2 ≤ fuel →
      UA.saveFuel fuel s now expiry fresh = UA.saveFuel 2 s now expiry fresh) ∧
    (s.user_is_active = false →
      (s.token = none ∨ s.get_is_expired now expiry = true) →
      UA.saveFuel 2 s now expiry fresh =
        some (s.generate_token_fields now fresh)) := by
  by_cases hg : (!s.user_is_active &&
      (s.token.isNone || s.get_is_expired now expiry)) = true
  · have h2 : UA.saveFuel 2 s now expiry fresh =
        some (s.generate_token_fields now fresh) := by
      rw [UA.saveFuel_guard_true 2 (by omega) hg]
      exact UA.saveFuel_guard_false 1 le_rfl
        (UA.guard_gtFields_false s now expiry fresh hexp)
    refine ⟨by simp [h2], ?_, fun _ _ => h2⟩
    intro fuel hfuel
    rw [h2, UA.saveFuel_guard_true fuel (by omega) hg]
    exact UA.saveFuel_guard_false (fuel - 1) (by omega)
      (UA.guard_gtFields_false s now expiry fresh hexp)
  · have hg' := eq_false_of_ne_true hg
    have h2 : UA.saveFuel 2 s now expiry fresh = some s :=
      UA.saveFuel_guard_false 2 (by omega) hg'
    refine ⟨by simp [h2], ?_, ?_⟩
    · intro fuel hfuel
      rw [h2, UA.saveFuel_guard_false fuel (by omega) hg']
    · intro hact htok
      exfalso
      apply hg
      rcases htok with h | h
      · simp [hact, h]
      · simp [hact, h]

/-- Claim C10 witness: saving an inactive user's activation with no token
terminates within fuel 2, producing the freshly stamped token state. -/
theorem C10_user_activation_save_terminates_witness :
    (UA.saveFuel 2 ⟨false, none, none, none⟩ 100 60 "12345678").isSome =
      true ∧
    UA.saveFuel 2 ⟨false, none, none, none⟩ 100 60 "12345678" =
      some ⟨false, some "12345678", some 100, none⟩ :=
  ⟨(C10_user_activation_save_terminates ⟨false, none, none, none⟩ 100 60
      "12345678" (by decide)).1,
   (C10_user_activation_save_terminates ⟨false, none, none, none⟩ 100 60
      "12345678" (by decide)).2.2 rfl (Or.inl rfl)⟩

end Galv
